import Mathlib

/-!
Shallow embedding of the Google Drive synchronization engine of the
efis-editor repository (`src/model/storage/gdrive.ts`, class
`GoogleDriveStorage`), together with proofs about its conflict
resolution, pagination, retry policy, scheduling and state machine.

Conventions of the embedding:
* TypeScript `Date` values are modelled as `Int` milliseconds since the
  epoch; the local checklist metadata stores seconds, and the code
  multiplies by 1000 when building a `Date` (line 273 of the source).
* Optional TypeScript fields become `Option` fields.
* Methods that perform I/O are modelled as pure functions that return
  the list of external requests/effects they would issue, alongside the
  updated engine state where relevant.
-/

namespace GDriveSync

/-- `DriveSyncState` from `gdrive.ts`. -/
inductive DriveSyncState where
  | DISCONNECTED
  | NEEDS_SYNC
  | SYNCING
  | IN_SYNC
  | FAILED
deriving DecidableEq, Repr

/-- `GoogleDriveStorage.MAX_RETRIES`. -/
def MAX_RETRIES : Nat := 3

/-- `GoogleDriveStorage.LONG_SYNC_INTERVAL_MS` (60 seconds). -/
def LONG_SYNC_INTERVAL_MS : Int := 60000

/-- `GoogleDriveStorage.SHORT_SYNC_INTERVAL_MS` (10 seconds). -/
def SHORT_SYNC_INTERVAL_MS : Int := 10000

/-- `GoogleDriveStorage.CHECKLIST_EXTENSION`. -/
def CHECKLIST_EXTENSION : String := ".checklist"

/-- `GoogleDriveStorage.CHECKLIST_MIME_TYPE`. -/
def CHECKLIST_MIME_TYPE : String := "application/vnd.damazio.efis-editor.checklist"

/-- HTTP 401, `HttpStatusCode.Unauthorized`. -/
def STATUS_UNAUTHORIZED : Nat := 401

/-- HTTP 403, `HttpStatusCode.Forbidden`. -/
def STATUS_FORBIDDEN : Nat := 403

/-- A `gapi.client.drive.File` as used by the engine: the listing query
requests the fields `id, name, modifiedTime, mimeType`, all of which are
optional in the gapi type.  `modifiedTime` (an ISO-8601 string in the
API) is modelled as epoch milliseconds. -/
structure RemoteFile where
  id : Option String
  name : Option String
  modifiedTime : Option Int
  mimeType : Option String
deriving DecidableEq, Repr

/-- A `ChecklistFile` as far as the engine reads it: the sync path uses
`checklist.metadata!.modifiedTime` (seconds) and the download path uses
`checklist.metadata?.name`.  Metadata is modelled as always present,
matching the non-null assertion in `_synchronizeLocalFile`. -/
structure ChecklistFile where
  name : String
  modifiedTime : Int
deriving DecidableEq, Repr

/-- The mutable fields of `GoogleDriveStorage` that the synchronization
logic reads and writes. -/
structure EngineState where
  state : DriveSyncState
  retryCount : Nat
  token : Option String
  needsSync : Bool
  /-- whether `_syncInterval` is set, i.e. the background timer runs. -/
  syncIntervalRunning : Bool
  /-- `_lastSync` as epoch milliseconds. -/
  lastSync : Int
deriving DecidableEq, Repr

/-- Result of `_handleRequestFailure`: the updated engine state, whether
`_authenticate()` was invoked, and whether the handler re-threw. -/
structure FailureResult where
  st : EngineState
  didAuthenticate : Bool
  threw : Bool
deriving DecidableEq, Repr

/-- `_handleRequestFailure` (gdrive.ts lines 177–195): increment the
retry counter; on 401/403 clear the token and either go DISCONNECTED and
re-authenticate (counter still below `MAX_RETRIES`) or go FAILED; on any
other status go FAILED and throw. -/
def handleRequestFailure (s : EngineState) (status : Nat) : FailureResult :=
  let s1 : EngineState := { s with retryCount := s.retryCount + 1 }
  if status = STATUS_UNAUTHORIZED ∨ status = STATUS_FORBIDDEN then
    let s2 : EngineState := { s1 with token := none }
    if s2.retryCount < MAX_RETRIES then
      ⟨{ s2 with state := .DISCONNECTED }, true, false⟩
    else
      ⟨{ s2 with state := .FAILED }, false, false⟩
  else
    ⟨{ s1 with state := .FAILED }, false, true⟩

/-- The successful branch of the `_authenticate` token callback
(gdrive.ts lines 155–171): store the fresh token and move to
NEEDS_SYNC (after which the callback invokes `synchronize` again). -/
def authCallbackSuccess (s : EngineState) (tok : String) : EngineState :=
  { s with token := some tok, state := .NEEDS_SYNC }

/-- `_stopBackgroundSync`: clear the interval timer. -/
def stopBackgroundSync (s : EngineState) : EngineState :=
  { s with syncIntervalRunning := false }

/-- `_startBackgroundSync` (gdrive.ts lines 410–426): a no-op when the
timer is already running, otherwise start it. -/
def startBackgroundSync (s : EngineState) : EngineState :=
  if s.syncIntervalRunning then s else { s with syncIntervalRunning := true }

/-- The prefix of `synchronize()` that runs once the SYNCING/DISCONNECTED
gates have passed and before any listing or transfer is issued
(gdrive.ts lines 207–214): enter SYNCING, record the pass start time,
stop the background timer, clear the pending-changes flag. -/
def syncBegin (s : EngineState) (now : Int) : EngineState :=
  stopBackgroundSync { s with state := .SYNCING, lastSync := now, needsSync := false }

/-- The outcome of the listing/transfer phase of one pass, as observed by
the `.then`/`.catch` at gdrive.ts lines 259–266: either all operations
resolved, or some operation rejected with an HTTP status. -/
inductive PassOutcome where
  | success
  | failure (status : Nat)
deriving DecidableEq, Repr

/-- Result of a `synchronize()` call: the updated engine state, whether
`_authenticate` was invoked, whether the listing/transfer phase was
entered at all, and whether the call re-threw a failure. -/
structure SyncResult where
  st : EngineState
  didAuthenticate : Bool
  didTransfers : Bool
  threw : Bool
deriving DecidableEq, Repr

/-- `synchronize()` (gdrive.ts lines 197–267) at the state-machine level.
`now` is the wall clock at the start of the call and `outcome` is how the
listing/transfer phase of this pass ends (it is only consulted when that
phase actually runs). -/
def synchronize (s : EngineState) (now : Int) (outcome : PassOutcome) : SyncResult :=
  if s.state = .SYNCING then
    ⟨s, false, false, false⟩
  else if s.state = .DISCONNECTED then
    ⟨s, true, false, false⟩
  else
    let s1 := syncBegin s now
    match outcome with
    | .success =>
        let s2 : EngineState := { s1 with state := .IN_SYNC, retryCount := 0 }
        ⟨startBackgroundSync s2, false, true, false⟩
    | .failure status =>
        let r := handleRequestFailure s1 status
        ⟨r.st, r.didAuthenticate, true, r.threw⟩

/-- The body of the background interval timer (gdrive.ts lines 416–425):
invoke `synchronize` iff local changes are pending or more than
`LONG_SYNC_INTERVAL_MS` elapsed since the last pass started.  Returns the
new engine state and whether `synchronize` was invoked. -/
def backgroundTick (s : EngineState) (now : Int) (outcome : PassOutcome) :
    EngineState × Bool :=
  if s.needsSync ∨ now - s.lastSync > LONG_SYNC_INTERVAL_MS then
    ((synchronize s now outcome).st, true)
  else
    (s, false)

/-- `_onChecklistsUpdated` (gdrive.ts lines 435–442). -/
def onChecklistsUpdated (s : EngineState) : EngineState :=
  let s1 : EngineState := { s with needsSync := true }
  if s1.state = .IN_SYNC then { s1 with state := .NEEDS_SYNC } else s1

/-! ## Remote listing and indexing -/

/-- JavaScript string falsiness as applied to the optional `name` and
`id` fields: `undefined` and `""` are falsy. -/
def optStrFalsy : Option String → Bool
  | none => true
  | some s => s = ""

/-- The pagination loop of `_listFiles` (gdrive.ts lines 303–329).  The
remote endpoint is modelled as the list of pages it serves: the page
token returned with page `i` designates page `i + 1` and the last page
carries no token, so the loop visits the pages in order, appending each
page's files to the accumulator until no token remains. -/
def listFilesLoop : List (List RemoteFile) → List RemoteFile → List RemoteFile
  | [], acc => acc
  | page :: rest, acc => listFilesLoop rest (acc ++ page)

/-- `_listFiles`: fetch every page, starting from an empty accumulator. -/
def listFiles (pages : List (List RemoteFile)) : List RemoteFile :=
  listFilesLoop pages []

/-- JavaScript `name.endsWith(suffix)` over codepoint lists (kernel
reducible, same semantics as `String.endsWith`). -/
def strEndsWith (s suffix : String) : Bool :=
  suffix.data.isSuffixOf s.data

/-- JavaScript `name.slice(0, -n)`: drop the last `n` codepoints. -/
def strDropRight (s : String) (n : Nat) : String :=
  ⟨s.data.take (s.data.length - n)⟩

/-- Strip `CHECKLIST_EXTENSION` from a remote filename to recover the
logical name (gdrive.ts lines 226–228). -/
def stripExtension (name : String) : String :=
  if strEndsWith name CHECKLIST_EXTENSION then
    strDropRight name CHECKLIST_EXTENSION.length
  else name

/-- The name→file map is a JavaScript `Map`; for lookup purposes we model
it as an association list where `set` replaces in place. -/
def mapSet : List (String × RemoteFile) → String → RemoteFile → List (String × RemoteFile)
  | [], k, v => [(k, v)]
  | (k1, v1) :: rest, k, v =>
      if k1 = k then (k, v) :: rest else (k1, v1) :: mapSet rest k v

/-- `Map.get`. -/
def mapGet : List (String × RemoteFile) → String → Option RemoteFile
  | [], _ => none
  | (k1, v1) :: rest, k => if k1 = k then some v1 else mapGet rest k

/-- One iteration of the indexing loop in `synchronize()` (gdrive.ts
lines 221–238): skip entries with a falsy name or id, strip the
checklist extension, and `set` into the map (overwriting earlier entries
of the same name). -/
def indexFile (m : List (String × RemoteFile)) (file : RemoteFile) :
    List (String × RemoteFile) :=
  if optStrFalsy file.name ∨ optStrFalsy file.id then m
  else mapSet m (stripExtension (file.name.getD "")) file

/-- The full name→file indexing of a remote listing. -/
def remoteFileMapOf (files : List RemoteFile) : List (String × RemoteFile) :=
  files.foldl indexFile []

/-! ## Per-file synchronization and transfers -/

/-- An effect issued by `_synchronizeLocalFile`: either an upload of a
local document (with the arguments the code passes to `_uploadFile`) or
a download of a remote file. -/
inductive SyncEffect where
  | upload (name : String) (existingId : Option String) (mimeType : String)
      (mtimeMs : Int) (doc : ChecklistFile)
  | download (remote : RemoteFile)
deriving DecidableEq, Repr

/-- `_synchronizeLocalFile` (gdrive.ts lines 269–301) as the list of
transfer effects it issues.  `getChecklistFile` is the local store's
lookup.  When the local record cannot be loaded the method returns at
once (line 271); an empty list means no transfer and no mutation. -/
def synchronizeLocalFile (getChecklistFile : String → Option ChecklistFile)
    (name : String) (remoteFile : Option RemoteFile) : List SyncEffect :=
  match getChecklistFile name with
  | none => []
  | some checklist =>
    let localModifiedTime : Int := checklist.modifiedTime * 1000
    let remoteModifiedTime : Option Int := remoteFile.bind RemoteFile.modifiedTime
    let remoteId : Option String := remoteFile.bind RemoteFile.id
    match remoteModifiedTime, remoteId, remoteFile with
    | some remoteMs, some _, some r =>
        if localModifiedTime > remoteMs then
          [.upload (name ++ CHECKLIST_EXTENSION) remoteId CHECKLIST_MIME_TYPE
            localModifiedTime checklist]
        else if localModifiedTime < remoteMs then
          [.download r]
        else
          []
    | _, _, _ =>
        [.upload (name ++ CHECKLIST_EXTENSION) remoteId CHECKLIST_MIME_TYPE
          localModifiedTime checklist]

/-- The transfer phase of one `synchronize()` pass (gdrive.ts lines
216–258): index the remote listing, then run `_synchronizeLocalFile`
for each *local* checklist name, looking up its remote counterpart in
the map. -/
def syncPassEffects (getChecklistFile : String → Option ChecklistFile)
    (localChecklistNames : List String) (pages : List (List RemoteFile)) :
    List SyncEffect :=
  let remoteFileMap := remoteFileMapOf (listFiles pages)
  (localChecklistNames.map fun name =>
    synchronizeLocalFile getChecklistFile name (mapGet remoteFileMap name)).flatten

/-- What `_downloadFile` hands to `ChecklistStorage.saveChecklistFile`,
plus whether the name-mismatch warning fired. -/
structure DownloadResult where
  warned : Bool
  savedChecklist : ChecklistFile
  savedMtimeMs : Option Int
deriving DecidableEq, Repr

/-- `_downloadFile` (gdrive.ts lines 331–357).  `checklist` is the result
of `ChecklistFile.fromJsonString` on the fetched body and `now` is the
wall clock during the call (the code never reads it; it is a parameter
only so independence from it can be stated).  The name comparison is
`checklist.metadata?.name + CHECKLIST_EXTENSION !== remoteFile.name`;
warning or not, the document is saved with the remote modified time. -/
def downloadFile (remoteFile : RemoteFile) (checklist : ChecklistFile)
    (_now : Int) : DownloadResult :=
  let modifiedTime : Option Int := remoteFile.modifiedTime
  let warned : Bool :=
    match remoteFile.name with
    | some n => checklist.name ++ CHECKLIST_EXTENSION ≠ n
    | none => true
  ⟨warned, checklist, modifiedTime⟩

/-- A request issued by `_uploadFile` against the remote store. -/
inductive RemoteRequest where
  | create (name : String) (mimeType : String) (modifiedTimeMs : Int)
  | patchMultipart (id : Option String) (metadataMtimeMs : Int)
      (contents : String) (mimeType : String)
deriving DecidableEq, Repr

/-- The `modifiedTime: '1970-01-01T00:00:00Z'` placeholder that
`_uploadFile` puts on a freshly created remote entry (gdrive.ts line
375), as epoch milliseconds. -/
def PLACEHOLDER_EPOCH_MS : Int := 0

/-- `_uploadFile` (gdrive.ts lines 359–408) as the sequence of remote
requests it issues.  When no remote id is known it first creates a
placeholder entry carrying the fixed epoch timestamp; `assignedId` is
the id the create response returns.  The multipart PATCH then carries a
metadata part with the real modification time and the contents. -/
def uploadFile (name : String) (existingId : Option String) (mimeType : String)
    (mtimeMs : Int) (contents : String) (assignedId : Option String) :
    List RemoteRequest :=
  match existingId with
  | some i => [.patchMultipart (some i) mtimeMs contents mimeType]
  | none =>
      [.create name mimeType PLACEHOLDER_EPOCH_MS,
       .patchMultipart assignedId mtimeMs contents mimeType]

/-- Whether an effect is an upload. -/
def isUploadEffect : SyncEffect → Bool
  | .upload .. => true
  | .download _ => false

/-- Whether an effect is a download. -/
def isDownloadEffect : SyncEffect → Bool
  | .upload .. => false
  | .download _ => true

end GDriveSync

namespace GDriveSync

/-! ## Theorems -/

/-- C10: when the local store cannot load the named document,
`_synchronizeLocalFile` returns at once: no upload, no download, no
mutation of either store, even when a newer remote record exists. -/
theorem missing_local_no_effects (store : String → Option ChecklistFile)
    (name : String) (remoteFile : Option RemoteFile)
    (h : store name = none) :
    synchronizeLocalFile store name remoteFile = [] := by
  simp [synchronizeLocalFile, h]

/-- Witness for `missing_local_no_effects`: a concrete empty store and a
concrete newer remote record. -/
theorem missing_local_no_effects_witness :
    (fun _ : String => (none : Option ChecklistFile)) "checklist-B" = none ∧
    synchronizeLocalFile (fun _ => none) "checklist-B"
      (some ⟨some "id9", some "checklist-B.checklist", some 200000,
        some CHECKLIST_MIME_TYPE⟩) = [] :=
  ⟨rfl, missing_local_no_effects (fun _ => none) "checklist-B"
    (some ⟨some "id9", some "checklist-B.checklist", some 200000,
      some CHECKLIST_MIME_TYPE⟩) rfl⟩

/-- C6: `_downloadFile` always hands the deserialized document to the
local store together with the *remote* record's modification time — it
does not depend on the wall clock — and a name mismatch only sets the
warning flag; the save happens in every case, warned or not. -/
theorem download_uses_remote_mtime (remoteFile : RemoteFile)
    (checklist : ChecklistFile) (now1 now2 : Int) :
    (downloadFile remoteFile checklist now1).savedChecklist = checklist ∧
    (downloadFile remoteFile checklist now1).savedMtimeMs = remoteFile.modifiedTime ∧
    downloadFile remoteFile checklist now1 = downloadFile remoteFile checklist now2 ∧
    (downloadFile remoteFile checklist now1).warned =
      (match remoteFile.name with
       | some n => decide (checklist.name ++ CHECKLIST_EXTENSION ≠ n)
       | none => true) :=
  ⟨rfl, rfl, rfl, rfl⟩

/-- C5: when no remote id is known, `_uploadFile` first creates a
placeholder entry whose metadata timestamp is the fixed epoch value —
not the local record's modification time — and only the subsequent
multipart request carries the real timestamp; the epoch placeholder is
strictly older than any positive local timestamp. -/
theorem upload_placeholder_epoch (name mimeType contents : String)
    (mtimeMs : Int) (assignedId : Option String) :
    uploadFile name none mimeType mtimeMs contents assignedId =
      [.create name mimeType PLACEHOLDER_EPOCH_MS,
       .patchMultipart assignedId mtimeMs contents mimeType] ∧
    (∀ localMs : Int, 0 < localMs → PLACEHOLDER_EPOCH_MS < localMs) :=
  ⟨rfl, fun _ h => h⟩

/-- Witness for `upload_placeholder_epoch` at concrete arguments. -/
theorem upload_placeholder_epoch_witness :
    uploadFile "n.checklist" none CHECKLIST_MIME_TYPE 5000 "body" (some "id1") =
      [.create "n.checklist" CHECKLIST_MIME_TYPE PLACEHOLDER_EPOCH_MS,
       .patchMultipart (some "id1") 5000 "body" CHECKLIST_MIME_TYPE] ∧
    PLACEHOLDER_EPOCH_MS < 5000 :=
  ⟨(upload_placeholder_epoch "n.checklist" CHECKLIST_MIME_TYPE "body" 5000
      (some "id1")).1,
   (upload_placeholder_epoch "n.checklist" CHECKLIST_MIME_TYPE "body" 5000
      (some "id1")).2 5000 (by decide)⟩

/-- C7: calling `synchronize()` while SYNCING is a complete no-op (state
unchanged, no authentication, no listing/transfer, nothing thrown), and
calling it while DISCONNECTED triggers authentication instead of the
listing/transfer phase. -/
theorem synchronize_gates (s : EngineState) (now : Int) (outcome : PassOutcome) :
    (s.state = .SYNCING → synchronize s now outcome = ⟨s, false, false, false⟩) ∧
    (s.state = .DISCONNECTED → synchronize s now outcome = ⟨s, true, false, false⟩) := by
  constructor
  · intro h
    simp [synchronize, h]
  · intro h
    simp [synchronize, h]

/-- C2: with a local record present and the remote record (when present)
carrying an id and a modification time, `_synchronizeLocalFile` uploads
iff the remote is absent or the local time (in ms) is strictly greater,
downloads iff the remote is present and the local time is strictly
smaller, and does nothing iff both are present with equal times. -/
theorem conflict_decision_spec (store : String → Option ChecklistFile)
    (name : String) (checklist : ChecklistFile)
    (hlocal : store name = some checklist) :
    (∀ (r : RemoteFile) (rid : String) (rt : Int),
        r.id = some rid → r.modifiedTime = some rt →
        (((synchronizeLocalFile store name (some r)).any isUploadEffect = true) ↔
          rt < checklist.modifiedTime * 1000) ∧
        (((synchronizeLocalFile store name (some r)).any isDownloadEffect = true) ↔
          checklist.modifiedTime * 1000 < rt) ∧
        ((synchronizeLocalFile store name (some r) = []) ↔
          checklist.modifiedTime * 1000 = rt)) ∧
    ((synchronizeLocalFile store name none).any isUploadEffect = true ∧
     (synchronizeLocalFile store name none).any isDownloadEffect = false) := by
  constructor
  · rintro ⟨rid0, rname0, rmt0, rmime0⟩ rid rt hid hmt
    simp only at hid hmt
    subst hid
    subst hmt
    simp only [synchronizeLocalFile, hlocal, Option.some_bind]
    split_ifs with h1 h2
    · exact ⟨iff_of_true rfl h1,
        iff_of_false (by simp [isDownloadEffect]) (by omega),
        iff_of_false (by simp) (by omega)⟩
    · exact ⟨iff_of_false (by simp [isUploadEffect]) (by omega),
        iff_of_true rfl h2,
        iff_of_false (by simp) (by omega)⟩
    · exact ⟨iff_of_false (by simp) (by omega),
        iff_of_false (by simp) (by omega),
        iff_of_true rfl (by omega)⟩
  · constructor
    · simp [synchronizeLocalFile, hlocal, isUploadEffect]
    · simp [synchronizeLocalFile, hlocal, isDownloadEffect]

/-- Witness for `conflict_decision_spec`: local record at 100 s, remote
record at 50 000 ms → upload. -/
theorem conflict_decision_spec_witness :
    (fun n : String => if n = "A" then some (⟨"A", 100⟩ : ChecklistFile) else none) "A" =
      some (⟨"A", 100⟩ : ChecklistFile) ∧
    (synchronizeLocalFile
      (fun n : String => if n = "A" then some (⟨"A", 100⟩ : ChecklistFile) else none) "A"
      (some ⟨some "idA", some "A.checklist", some 50000, some CHECKLIST_MIME_TYPE⟩)).any
        isUploadEffect = true :=
  ⟨by decide,
   (((conflict_decision_spec
        (fun n : String => if n = "A" then some (⟨"A", 100⟩ : ChecklistFile) else none)
        "A" ⟨"A", 100⟩ (by decide)).1
      ⟨some "idA", some "A.checklist", some 50000, some CHECKLIST_MIME_TYPE⟩
      "idA" 50000 rfl rfl).1).mpr (by decide)⟩

/-- C3: on HTTP 401/403 the failure handler increments the retry counter
and clears the token; strictly below `MAX_RETRIES` it moves to
DISCONNECTED and re-authenticates, otherwise it moves to FAILED without
authenticating.  The counter is reset to zero by a successful pass and
only grows on failing passes.  Three consecutive authorization failures
end in FAILED after exactly two re-authentication attempts (so no fourth
authentication happens). -/
theorem auth_failure_retry_policy :
    (∀ (s : EngineState) (status : Nat),
      status = STATUS_UNAUTHORIZED ∨ status = STATUS_FORBIDDEN →
      (handleRequestFailure s status).st.retryCount = s.retryCount + 1 ∧
      (handleRequestFailure s status).st.token = none ∧
      (s.retryCount + 1 < MAX_RETRIES →
        (handleRequestFailure s status).st.state = .DISCONNECTED ∧
        (handleRequestFailure s status).didAuthenticate = true) ∧
      (¬ s.retryCount + 1 < MAX_RETRIES →
        (handleRequestFailure s status).st.state = .FAILED ∧
        (handleRequestFailure s status).didAuthenticate = false)) ∧
    (∀ (s : EngineState) (now : Int),
      s.state ≠ .SYNCING → s.state ≠ .DISCONNECTED →
      (synchronize s now .success).st.retryCount = 0 ∧
      ∀ status, (synchronize s now (.failure status)).st.retryCount = s.retryCount + 1) ∧
    (let s0 : EngineState := ⟨.NEEDS_SYNC, 0, some "tok", false, true, 0⟩
     let r1 := synchronize s0 0 (.failure STATUS_UNAUTHORIZED)
     let s1 := authCallbackSuccess r1.st "tok2"
     let r2 := synchronize s1 0 (.failure STATUS_UNAUTHORIZED)
     let s2 := authCallbackSuccess r2.st "tok3"
     let r3 := synchronize s2 0 (.failure STATUS_UNAUTHORIZED)
     r1.didAuthenticate = true ∧ r1.st.state = .DISCONNECTED ∧
     r2.didAuthenticate = true ∧ r2.st.state = .DISCONNECTED ∧
     r3.didAuthenticate = false ∧ r3.st.state = .FAILED ∧
     r3.st.retryCount = 3) := by
  refine ⟨?_, ?_, by decide⟩
  · intro s status h
    simp only [handleRequestFailure, if_pos h]
    split_ifs with h2
    · exact ⟨rfl, rfl, fun _ => ⟨rfl, rfl⟩, fun hn => absurd h2 hn⟩
    · exact ⟨rfl, rfl, fun hy => absurd hy h2, fun _ => ⟨rfl, rfl⟩⟩
  · intro s now h1 h2
    constructor
    · simp [synchronize, h1, h2, syncBegin, stopBackgroundSync, startBackgroundSync]
    · intro status
      simp only [synchronize, h1, h2, if_neg, if_false]
      simp [handleRequestFailure, syncBegin, stopBackgroundSync]
      split_ifs <;> rfl

/-- Witness for `auth_failure_retry_policy` at concrete inputs. -/
theorem auth_failure_retry_policy_witness :
    (handleRequestFailure ⟨.SYNCING, 0, some "t", false, false, 0⟩
      STATUS_UNAUTHORIZED).st.state = .DISCONNECTED ∧
    (synchronize ⟨.NEEDS_SYNC, 2, some "t", false, true, 0⟩ 7 .success).st.retryCount = 0 :=
  ⟨((auth_failure_retry_policy.1 ⟨.SYNCING, 0, some "t", false, false, 0⟩
      STATUS_UNAUTHORIZED (Or.inl rfl)).2.2.1 (by decide)).1,
   (auth_failure_retry_policy.2.1 ⟨.NEEDS_SYNC, 2, some "t", false, true, 0⟩ 7
      (by decide) (by decide)).1⟩

/-- Witness for `synchronize_gates`: concrete SYNCING and DISCONNECTED
states. -/
theorem synchronize_gates_witness :
    synchronize ⟨.SYNCING, 1, some "t", true, false, 0⟩ 5 .success =
      ⟨⟨.SYNCING, 1, some "t", true, false, 0⟩, false, false, false⟩ ∧
    synchronize ⟨.DISCONNECTED, 0, none, false, false, 0⟩ 5 .success =
      ⟨⟨.DISCONNECTED, 0, none, false, false, 0⟩, true, false, false⟩ :=
  ⟨(synchronize_gates ⟨.SYNCING, 1, some "t", true, false, 0⟩ 5 .success).1 rfl,
   (synchronize_gates ⟨.DISCONNECTED, 0, none, false, false, 0⟩ 5 .success).2 rfl⟩

/-- C8: a background tick invokes `synchronize` iff the pending-changes
flag is set or more than `LONG_SYNC_INTERVAL_MS` elapsed since the last
pass started; the pass prefix stops the timer before any transfer, the
timer is running after a pass iff the pass succeeded, and a pass failing
with a non-authorization status ends FAILED with the timer stopped and
no authentication triggered — so nothing runs again automatically. -/
theorem scheduler_stop_restart (s : EngineState) (now : Int) (outcome : PassOutcome) :
    ((backgroundTick s now outcome).2 = true ↔
      (s.needsSync = true ∨ now - s.lastSync > LONG_SYNC_INTERVAL_MS)) ∧
    ((syncBegin s now).syncIntervalRunning = false) ∧
    (s.state ≠ .SYNCING → s.state ≠ .DISCONNECTED →
      ((synchronize s now outcome).st.syncIntervalRunning = true ↔
        outcome = .success)) ∧
    (∀ status : Nat, s.state ≠ .SYNCING → s.state ≠ .DISCONNECTED →
      status ≠ STATUS_UNAUTHORIZED → status ≠ STATUS_FORBIDDEN →
      (synchronize s now (.failure status)).st.state = .FAILED ∧
      (synchronize s now (.failure status)).st.syncIntervalRunning = false ∧
      (synchronize s now (.failure status)).didAuthenticate = false) := by
  refine ⟨?_, rfl, ?_, ?_⟩
  · simp only [backgroundTick]
    split_ifs with h
    · simpa using h
    · simpa using h
  · intro h1 h2
    cases outcome with
    | success =>
        simp [synchronize, h1, h2, syncBegin, stopBackgroundSync, startBackgroundSync]
    | failure status =>
        simp only [synchronize, if_neg h1, if_neg h2]
        simp only [handleRequestFailure, syncBegin, stopBackgroundSync]
        split_ifs <;> simp
  · intro status h1 h2 h3 h4
    simp only [synchronize, if_neg h1, if_neg h2]
    have hcond : ¬(status = STATUS_UNAUTHORIZED ∨ status = STATUS_FORBIDDEN) := by
      rintro (h | h)
      · exact h3 h
      · exact h4 h
    simp [handleRequestFailure, hcond, syncBegin, stopBackgroundSync]

/-- Witness for `scheduler_stop_restart`: a NEEDS_SYNC state with the
pending flag set ticks into a sync; a 500 failure stops the timer. -/
theorem scheduler_stop_restart_witness :
    ((backgroundTick ⟨.NEEDS_SYNC, 0, some "t", true, true, 0⟩ 1000 .success).2 = true ↔
      ((true : Bool) = true ∨ (1000 : Int) - 0 > LONG_SYNC_INTERVAL_MS)) ∧
    (synchronize ⟨.NEEDS_SYNC, 0, some "t", true, true, 0⟩ 1000
      (.failure 500)).st.state = .FAILED ∧
    (synchronize ⟨.NEEDS_SYNC, 0, some "t", true, true, 0⟩ 1000
      (.failure 500)).st.syncIntervalRunning = false :=
  ⟨(scheduler_stop_restart ⟨.NEEDS_SYNC, 0, some "t", true, true, 0⟩ 1000 .success).1,
   ((scheduler_stop_restart ⟨.NEEDS_SYNC, 0, some "t", true, true, 0⟩ 1000
      (.failure 500)).2.2.2 500 (by decide) (by decide) (by decide) (by decide)).1,
   ((scheduler_stop_restart ⟨.NEEDS_SYNC, 0, some "t", true, true, 0⟩ 1000
      (.failure 500)).2.2.2 500 (by decide) (by decide) (by decide) (by decide)).2.1⟩

/-- C9: `_handleRequestFailure` increments the retry counter in every
branch, before classifying the status; a non-authorization status moves
the state to FAILED, re-throws and triggers no authentication.  Since
only a successful pass resets the counter, a non-authorization failure
consumes part of the re-authentication budget: after one 500 failure,
a single further 401 re-authentication attempt remains before FAILED. -/
theorem failure_retry_budget :
    (∀ (s : EngineState) (status : Nat),
      (handleRequestFailure s status).st.retryCount = s.retryCount + 1) ∧
    (∀ (s : EngineState) (status : Nat),
      status ≠ STATUS_UNAUTHORIZED → status ≠ STATUS_FORBIDDEN →
      (handleRequestFailure s status).st.state = .FAILED ∧
      (handleRequestFailure s status).threw = true ∧
      (handleRequestFailure s status).didAuthenticate = false) ∧
    (let s0 : EngineState := ⟨.NEEDS_SYNC, 0, some "tok", false, true, 0⟩
     let r1 := synchronize s0 0 (.failure 500)
     let r2 := synchronize r1.st 0 (.failure STATUS_UNAUTHORIZED)
     let s2 := authCallbackSuccess r2.st "t2"
     let r3 := synchronize s2 0 (.failure STATUS_UNAUTHORIZED)
     r1.st.state = .FAILED ∧ r1.threw = true ∧ r1.st.retryCount = 1 ∧
     r2.didAuthenticate = true ∧ r2.st.state = .DISCONNECTED ∧
     r2.st.retryCount = 2 ∧
     r3.didAuthenticate = false ∧ r3.st.state = .FAILED ∧
     r3.st.retryCount = 3) := by
  refine ⟨?_, ?_, by decide⟩
  · intro s status
    simp only [handleRequestFailure]
    split_ifs <;> rfl
  · intro s status h1 h2
    have hcond : ¬(status = STATUS_UNAUTHORIZED ∨ status = STATUS_FORBIDDEN) := by
      rintro (h | h)
      · exact h1 h
      · exact h2 h
    simp [handleRequestFailure, hcond]

/-- Witness for `failure_retry_budget` at concrete inputs. -/
theorem failure_retry_budget_witness :
    (handleRequestFailure ⟨.SYNCING, 0, some "t", false, false, 0⟩ 500).st.retryCount =
      0 + 1 ∧
    (handleRequestFailure ⟨.SYNCING, 0, some "t", false, false, 0⟩ 500).st.state =
      .FAILED :=
  ⟨failure_retry_budget.1 ⟨.SYNCING, 0, some "t", false, false, 0⟩ 500,
   (failure_retry_budget.2.1 ⟨.SYNCING, 0, some "t", false, false, 0⟩ 500
      (by decide) (by decide)).1⟩

/-- The pagination loop accumulates the pages in order. -/
theorem listFilesLoop_eq_flatten (pages : List (List RemoteFile))
    (acc : List RemoteFile) :
    listFilesLoop pages acc = acc ++ pages.flatten := by
  induction pages generalizing acc with
  | nil => simp [listFilesLoop]
  | cons p rest ih => simp [listFilesLoop, ih]

/-- `Map.set` followed by `Map.get` of the same key yields the value
just set. -/
theorem mapGet_mapSet_self (m : List (String × RemoteFile)) (k : String)
    (v : RemoteFile) : mapGet (mapSet m k v) k = some v := by
  induction m with
  | nil => simp [mapSet, mapGet]
  | cons hd tl ih =>
      obtain ⟨k1, v1⟩ := hd
      by_cases h : k1 = k
      · simp [mapSet, mapGet, h]
      · simp [mapSet, mapGet, h, ih]

/-- C4: `_listFiles` threads the page token until none is returned,
returning the concatenation of all pages in order; the indexer keeps the
last-seen entry per stripped logical name (any entry with a usable name
and id that arrives last wins); indexing three one-record pages with the
same name and increasing modification times yields exactly one map
entry, the last page's record. -/
theorem listing_pagination_last_seen :
    (∀ pages : List (List RemoteFile), listFiles pages = pages.flatten) ∧
    (∀ (files : List RemoteFile) (f : RemoteFile) (rid rname : String),
      f.id = some rid → rid ≠ "" → f.name = some rname → rname ≠ "" →
      mapGet (remoteFileMapOf (files ++ [f])) (stripExtension rname) = some f) ∧
    (remoteFileMapOf (listFiles
        [[⟨some "idA", some "checklist-B.checklist", some 100, some CHECKLIST_MIME_TYPE⟩],
         [⟨some "idB", some "checklist-B.checklist", some 200, some CHECKLIST_MIME_TYPE⟩],
         [⟨some "idC", some "checklist-B.checklist", some 300, some CHECKLIST_MIME_TYPE⟩]]) =
      [("checklist-B",
        ⟨some "idC", some "checklist-B.checklist", some 300, some CHECKLIST_MIME_TYPE⟩)]) := by
  refine ⟨?_, ?_, by decide⟩
  · intro pages
    simpa using listFilesLoop_eq_flatten pages []
  · intro files f rid rname hid hridne hname hrnamene
    have hstep : remoteFileMapOf (files ++ [f]) = indexFile (remoteFileMapOf files) f := by
      rw [remoteFileMapOf, List.foldl_concat]
      rfl
    have hfalsyname : optStrFalsy f.name = false := by
      rw [hname]
      simp [optStrFalsy, hrnamene]
    have hfalsyid : optStrFalsy f.id = false := by
      rw [hid]
      simp [optStrFalsy, hridne]
    rw [hstep, indexFile, if_neg (by simp [hfalsyname, hfalsyid])]
    simp only [hname, Option.getD_some]
    exact mapGet_mapSet_self _ _ _

/-- Witness for `listing_pagination_last_seen`: appending a well-named
record makes it the map's entry for its stripped name. -/
theorem listing_pagination_last_seen_witness :
    mapGet (remoteFileMapOf
        ([⟨some "idA", some "checklist-B.checklist", some 100, some CHECKLIST_MIME_TYPE⟩] ++
         [⟨some "idB", some "checklist-B.checklist", some 200, some CHECKLIST_MIME_TYPE⟩]))
      (stripExtension "checklist-B.checklist") =
      some ⟨some "idB", some "checklist-B.checklist", some 200, some CHECKLIST_MIME_TYPE⟩ :=
  listing_pagination_last_seen.2.1
    [⟨some "idA", some "checklist-B.checklist", some 100, some CHECKLIST_MIME_TYPE⟩]
    ⟨some "idB", some "checklist-B.checklist", some 200, some CHECKLIST_MIME_TYPE⟩
    "idB" "checklist-B.checklist" rfl (by decide) rfl (by decide)

/-- The remote record of the C1 scenario: `checklist-B.checklist`,
modified at T = 200 000 ms, with no local counterpart. -/
def remoteOnlyFile : RemoteFile :=
  ⟨some "idB", some "checklist-B.checklist", some 200000, some CHECKLIST_MIME_TYPE⟩

/-- C1 (code bug): the transfer phase of `synchronize()` iterates only
over *local* checklist names, so a pass with no local documents issues
no effect at all, whatever the remote listing holds — even though the
remote record is present in the name→file map.  A remote record with no
local counterpart is therefore never downloaded, contradicting the
class's own doc comment ("If a file only exists remotely, it's
downloaded") and the spec's download decision. -/
theorem remote_only_file_not_downloaded :
    (∀ (store : String → Option ChecklistFile) (pages : List (List RemoteFile)),
      syncPassEffects store [] pages = []) ∧
    remoteFileMapOf (listFiles [[remoteOnlyFile]]) = [("checklist-B", remoteOnlyFile)] ∧
    syncPassEffects (fun _ => none) [] [[remoteOnlyFile]] = [] := by
  exact ⟨fun _ _ => rfl, by decide, by decide⟩

end GDriveSync
